import Mathlib

/-!
Verification of the Resource-Pressure Controller of the videogen repository.

The development shallowly embeds the two subsystems the claims are about:

* the degradation ladder of `src/app/services/render_free_handler.py`
  (`render_free_generate_video`, `RenderFreeVideoHandler.create_minimal_video`,
  `RenderFreeVideoHandler.create_image_slideshow`), and
* the eviction machinery of `src/render_memory_fix.py`
  (`delete_old_files`, `clean_temp_files`, `memory_monitor_thread`) and of
  `src/memory_monitor.py` (`cleanup_old_videos`).

Filesystem and subprocess effects are abstracted into an explicit event trace
(`Ev`): every observable action of the Python code (a backend encode or
frame-extraction subprocess, an ImageMagick `convert` call, a file write, a
file removal, a log line, a garbage-collection pass) becomes one event, in
the order the source performs them.  Non-deterministic outcomes of the
environment (does the static-video lookup find a file, does a copy succeed,
does ffmpeg exit 0, does a write raise) are passed in as explicit boolean
oracles, one per decision point of the source.  Wall-clock time is an `Int`
of epoch seconds and is always a parameter, mirroring the source's calls to
`datetime.now()` at each scan.
-/

namespace VideoGen

/-- The degradation tiers of spec §3, in ladder order. -/
inductive Tier where
  | ReuseStatic
  | Slideshow
  | MinimalEncode
  | Placeholder
deriving DecidableEq

/-- Position of a tier in the ladder's total order. -/
def tierIdx : Tier → Nat
  | .ReuseStatic => 0
  | .Slideshow => 1
  | .MinimalEncode => 2
  | .Placeholder => 3

/-- The single-quote character, written by code point to keep source plain. -/
def squote : Char := Char.ofNat 39

/-- The double-quote character, written by code point. -/
def dquote : Char := Char.ofNat 34

/-- Observable events of the embedded code, in source order. -/
inductive Ev where
  /-- The controller starts attempting a ladder tier. -/
  | tier (t : Tier)
  /-- Video Encoding Backend: the ffmpeg encode subprocess of
  `create_minimal_video`, carrying the drawtext prompt it is given. -/
  | backendEncode (text : List Char)
  /-- Video Encoding Backend: an ffmpeg single-frame extraction subprocess. -/
  | backendExtract
  /-- The secondary ImageMagick `convert` image-generation fallback. -/
  | convertCall
  /-- A write of `content` to the request's output path. -/
  | writeOutput (content : String)
  /-- A write of `content` to the request's preview path. -/
  | writePreview (content : String)
  /-- The slideshow HTML companion file, holding one slide per image. -/
  | writeHtml (slides : List String)
  /-- `shutil.copy2` of one slideshow input image into the output directory. -/
  | copyImage (src : String)
  /-- A successful `os.remove` of a managed artifact or temp file. -/
  | removeFile (name : String)
  /-- A `logger.error` line tagged with what failed. -/
  | logError (tag : String)
  /-- A `logger.warning` line. -/
  | logWarn
  /-- A `logger.info` line. -/
  | logInfo
  /-- An invocation of `clean_temp_files` (the temp sweep). -/
  | tempSweepCall
  /-- An invocation of `clear_memory_aggressively` (gc passes). -/
  | gcCall
deriving DecidableEq

/-- Environment oracle for one call of
`RenderFreeVideoHandler.create_minimal_video` (render_free_handler.py 178-275).

`raises` models an exception in the `try` block before the encode subprocess
completes (temp-directory creation, writing the scratch frame file, or
`os.makedirs` failing); `fallbackOk` whether the `except` handler's
`os.makedirs` + write of the fallback text succeed; `encodeOk` whether the
ffmpeg encode exits 0; `convertOk` whether the secondary ImageMagick
`convert` exits 0. -/
structure MinimalEnv where
  raises : Bool
  fallbackOk : Bool
  encodeOk : Bool
  convertOk : Bool
deriving DecidableEq

/-- The explanatory text `create_minimal_video` writes to the output path when
the encode fails or raises (render_free_handler.py lines 239-240 and 271-272). -/
def fallbackText (prompt : List Char) : String :=
  "Video for: " ++ String.mk prompt ++ "\nFailed to create due to memory constraints."

/-- What one `create_minimal_video` call did: its boolean return value, its
event trace, and the content sitting at the output path / preview path when it
returns (`none` when no file was produced there). -/
structure MVResult where
  success : Bool
  events : List Ev
  outputContent : Option String
  previewContent : Option String
deriving DecidableEq

/-- Stand-in for the bytes of a successfully encoded clip (non-empty). -/
def mp4Bytes : String := "MP4DATA"

/-- Stand-in for the bytes of a successfully converted preview image. -/
def jpgBytes : String := "JPGDATA"

/-- Shallow embedding of `RenderFreeVideoHandler.create_minimal_video`
(render_free_handler.py 178-275).  The happy path runs the ffmpeg encode and
returns True; a non-zero exit logs the error, overwrites the output path with
`fallbackText`, opens the preview path and runs the secondary `convert`
(leaving the preview empty when `convert` fails), and returns False; an
exception logs, attempts the same fallback write, and returns False either
way. -/
def create_minimal_video (m : MinimalEnv) (prompt : List Char) : MVResult :=
  if m.raises then
    if m.fallbackOk then
      { success := false
        events := [.logError "create_minimal_video", .writeOutput (fallbackText prompt)]
        outputContent := some (fallbackText prompt)
        previewContent := none }
    else
      { success := false
        events := [.logError "create_minimal_video"]
        outputContent := none
        previewContent := none }
  else if m.encodeOk then
    { success := true
      events := [.backendEncode prompt, .writeOutput mp4Bytes]
      outputContent := some mp4Bytes
      previewContent := none }
  else
    { success := false
      events := [.backendEncode prompt, .logError "ffmpeg failed",
                 .writeOutput (fallbackText prompt), .convertCall] ++
                (if m.convertOk then [.writePreview jpgBytes] else [])
      outputContent := some (fallbackText prompt)
      previewContent := some (if m.convertOk then jpgBytes else "") }

/-- The prompt clean-up of `render_free_generate_video` (lines 338, 345, 377):
`prompt.replace(squote, "").replace(dquote, "")[:n]` — drop every single and
double quote, then keep at most `n` characters. -/
def sanitize (n : Nat) (p : String) : List Char :=
  ((p.toList.filter (fun c => c != squote)).filter (fun c => c != dquote)).take n

/-- Environment oracle for one `render_free_generate_video` request.

`staticFound`: `get_static_video` returned a path (directory present and
non-empty).  `copyOk`: `shutil.copy2` of the static video succeeded.
`extractRaises`: the reuse-path preview extraction raised (so the textual
preview stub is written instead).  `disable`: the `DISABLE_VIDEO_PROCESSING`
switch.  `m1`: oracle of the first `create_minimal_video` call.
`outerRaises`: an exception in the normal path's preview-derivation block
after `create_minimal_video` returned, sending control to the last-resort
branch.  `extract2Raises`: the minimal-path preview extraction raised.
`m2`: oracle of the last-resort `create_minimal_video` call. -/
structure GenEnv where
  staticFound : Bool
  copyOk : Bool
  extractRaises : Bool
  disable : Bool
  m1 : MinimalEnv
  outerRaises : Bool
  extract2Raises : Bool
  m2 : MinimalEnv
deriving DecidableEq

/-- Outcome of one request: the boolean the patched entry point returns, and
the event trace. -/
structure GenResult where
  success : Bool
  events : List Ev
deriving DecidableEq

/-- The guard `os.path.exists(output_path) and os.path.getsize(output_path) > 0`
of render_free_handler.py line 356, read off the modelled output content. -/
def outputPresentNonempty (r : MVResult) : Bool :=
  match r.outputContent with
  | some s => decide (0 < s.length)
  | none => false

/-- Shallow embedding of `render_free_generate_video`
(render_free_handler.py 297-378), the per-request ladder controller.
Tier starts are recorded as `Ev.tier` events: the static-video lookup is the
ReuseStatic attempt, each `create_minimal_video` call a MinimalEncode attempt.
The task-id only names the preview file on disk and is elided. -/
def render_free_generate_video (e : GenEnv) (prompt : String) : GenResult :=
  -- tier 1: get_static_video lookup, then copy to the output path
  if e.staticFound && e.copyOk then
    -- reuse succeeded: derive a preview via backend extraction, substituting
    -- a textual stub (with the raw prompt, line 328) when that raises
    if e.extractRaises then
      { success := true
        events := [.tier .ReuseStatic, .writePreview ("Preview for " ++ prompt)] }
    else
      { success := true
        events := [.tier .ReuseStatic, .backendExtract] }
  else
    -- lookup failed, or the copy raised (logged) and control fell through
    let evs0 : List Ev :=
      if e.staticFound then [.tier .ReuseStatic, .logError "copy failed"]
      else [.tier .ReuseStatic]
    let sp := sanitize 50 prompt
    if e.disable then
      -- disable-processing branch (lines 335-339): straight to create_minimal_video
      let r := create_minimal_video e.m1 sp
      { success := r.success
        events := evs0 ++ [.logWarn, .tier .MinimalEncode] ++ r.events }
    else
      -- normal branch (lines 342-371)
      let r := create_minimal_video e.m1 sp
      let evs1 := evs0 ++ [.tier .MinimalEncode] ++ r.events
      if e.outerRaises then
        -- exception in the preview block: log, then the last resort (375-378)
        let r2 := create_minimal_video e.m2 (sanitize 30 prompt)
        { success := r2.success
          events := evs1 ++ [.logError "outer", .logWarn, .tier .MinimalEncode] ++ r2.events }
      else
        let pv : List Ev :=
          if outputPresentNonempty r then
            if e.extract2Raises then
              [.logError "extract", .writePreview ("Preview for " ++ String.mk sp)]
            else [.backendExtract]
          else []
        { success := r.success, events := evs1 ++ pv }

/-- The tier-attempt subsequence of a trace. -/
def tierOf : Ev → Option Tier
  | .tier t => some t
  | _ => none

/-- Tiers a request attempted, in order. -/
def attemptedTiers (r : GenResult) : List Tier :=
  r.events.filterMap tierOf

/-- Whether an event is a Video Encoding Backend encode call. -/
def isEncode : Ev → Bool
  | .backendEncode _ => true
  | _ => false

/-- Number of backend encode invocations in a request's trace. -/
def encodeCalls (r : GenResult) : Nat :=
  (r.events.filter isEncode).length

/-- Number of backend frame-extraction invocations in a request's trace. -/
def extractCalls (r : GenResult) : Nat :=
  (r.events.filter (fun ev => ev == .backendExtract)).length

/-- The marker text `create_image_slideshow` writes at the output path
(render_free_handler.py 168-169); the interpolated html path is elided. -/
def slideshowMarker : String :=
  "This is a placeholder file. Please open the HTML slideshow at "

/-- Shallow embedding of `RenderFreeVideoHandler.create_image_slideshow`
(render_free_handler.py 62-176).  `writesOk` models whether the image copies
and the two writes go through; the static HTML boilerplate is abstracted to
the list of slides (one per input image).  Note the source iterates over
`images` without any emptiness check and returns True after the writes. -/
def create_image_slideshow (writesOk : Bool) (images : List String) : Bool × List Ev :=
  if writesOk then
    (true, images.map (fun i => Ev.copyImage i) ++
           [.writeHtml images, .writeOutput slideshowMarker])
  else
    (false, [.logError "slideshow"])

/-! ### The eviction side: render_memory_fix.py and memory_monitor.py -/

/-- One file under management, as one eviction pass sees it.  `present`
models whether the file still exists when the pass stats it (a producing
request or a concurrent pass may have removed it after the directory walk);
`removable` whether `os.remove` succeeds (false covers permission, in-use,
and vanished-after-stat conditions, all of which raise into the same
handler). -/
structure FileRec where
  name : String
  mtime : Int
  present : Bool
  removable : Bool
deriving DecidableEq

/-- A managed directory: whether it exists, and the files a walk finds. -/
structure Dir where
  present : Bool
  files : List FileRec
deriving DecidableEq

/-- Default extension filter of `delete_old_files` (render_memory_fix.py 53). -/
def DEFAULT_EXTENSIONS : List String := [".mp4", ".jpg", ".png", ".wav", ".mp3"]

/-- `name.endswith(ext)`, computed over character lists so that concrete
instances evaluate. -/
def endsWithExt (name ext : String) : Bool :=
  List.isSuffixOf ext.toList name.toList

/-- `any(file.endswith(ext) for ext in extensions)`. -/
def matchesExt (exts : List String) (name : String) : Bool :=
  exts.any (fun ext => endsWithExt name ext)

/-- `timedelta(days=0.5)` in seconds (the monitor's normal cutoff). -/
def HALF_DAY : Int := 43200

/-- `timedelta(days=1)` in seconds. -/
def ONE_DAY : Int := 86400

/-- `MEMORY_THRESHOLD` of render_memory_fix.py line 24 (percent). -/
def MEMORY_THRESHOLD : ℚ := 65

/-- The per-file loop body of `delete_old_files` (render_memory_fix.py 58-68):
for each extension-matching file, the `try` stats it (raising into the
logging `except` when it is gone), compares its mtime against the cutoff
computed once per call, and removes it when strictly older, counting only
successful removals. -/
def deleteFilesFrom (now cutoffSecs : Int) (exts : List String) :
    List FileRec → Nat × List Ev
  | [] => (0, [])
  | f :: rest =>
    let r := deleteFilesFrom now cutoffSecs exts rest
    if matchesExt exts f.name then
      if !f.present then (r.1, .logError f.name :: r.2)
      else if f.mtime < now - cutoffSecs then
        if f.removable then (r.1 + 1, .removeFile f.name :: r.2)
        else (r.1, .logError f.name :: r.2)
      else r
    else r

/-- Shallow embedding of `delete_old_files` (render_memory_fix.py 47-70):
a missing directory returns 0 at once (no log); otherwise the cutoff is
`now` minus the given duration and the walk's files are processed in order.
`now` is a parameter because the source calls `datetime.now()` afresh at
every invocation. -/
def delete_old_files (dir : Dir) (now cutoffSecs : Int) (exts : List String) :
    Nat × List Ev :=
  if !dir.present then (0, [])
  else deleteFilesFrom now cutoffSecs exts dir.files

/-- Extension filter of `clean_temp_files` (render_memory_fix.py 188). -/
def TEMP_EXTENSIONS : List String := [".mp4", ".avi", ".mov", ".mkv", ".webm", ".tmp"]

/-- A file in a system temp directory as `clean_temp_files` tests it:
`symlink` is `os.path.islink`, `writable` is `os.access(.., W_OK)`,
`removeOk` whether the `os.remove` goes through (its failure is swallowed
silently by the inner `except: pass`). -/
structure TempFile where
  name : String
  symlink : Bool
  writable : Bool
  removeOk : Bool
deriving DecidableEq

/-- A system temp directory. -/
structure TempDir where
  present : Bool
  files : List TempFile
deriving DecidableEq

/-- The per-file loop of `clean_temp_files` (render_memory_fix.py 191-202):
age is never consulted; a matching, non-symlink, writable file is removed,
and a failing remove is skipped without any log. -/
def sweepTempFiles : List TempFile → List Ev
  | [] => []
  | f :: rest =>
    (if matchesExt TEMP_EXTENSIONS f.name && !f.symlink && f.writable then
       if f.removeOk then [Ev.removeFile f.name] else []
     else []) ++ sweepTempFiles rest

/-- Shallow embedding of `clean_temp_files` (render_memory_fix.py 180-207):
each existing temp directory is swept unconditionally.  The call itself is
recorded as an `Ev.tempSweepCall` event. -/
def clean_temp_files (dirs : List TempDir) : List Ev :=
  Ev.tempSweepCall :: (dirs.map (fun d => if d.present then sweepTempFiles d.files else [])).flatten

/-- What one iteration of the monitor loop sees: the sampled memory percent,
the cache and tasks directories, the temp directories, and the wall clock at
this scan. -/
structure IterInput where
  percent : ℚ
  cache : Dir
  tasks : Dir
  temps : List TempDir
  now : Int
deriving DecidableEq

/-- One iteration of `memory_monitor_thread`'s `while True` body
(render_memory_fix.py 216-238): above the threshold it warns, evicts the
cache then the tasks directory with the 12-hour cutoff, logs the counts,
sweeps the temp directories and forces gc; at or below the threshold it only
logs the current usage. -/
def memoryIteration (it : IterInput) : List Ev :=
  if it.percent > MEMORY_THRESHOLD then
    Ev.logWarn ::
      ((delete_old_files it.cache it.now HALF_DAY DEFAULT_EXTENSIONS).2 ++
       (delete_old_files it.tasks it.now HALF_DAY DEFAULT_EXTENSIONS).2 ++
       [Ev.logInfo] ++
       clean_temp_files it.temps ++
       [Ev.gcCall])
  else [Ev.logInfo]

/-- Shallow embedding of `memory_monitor_thread` (render_memory_fix.py
209-242): an unconditional start-of-life temp sweep, then the sampled
iterations in order (the loop's own `except` makes each iteration total). -/
def memory_monitor_thread (startTemps : List TempDir) (iters : List IterInput) : List Ev :=
  clean_temp_files startTemps ++ (iters.map memoryIteration).flatten

/-- The per-file loop of `cleanup_old_videos` (memory_monitor.py 47-69).
There the mtime stat sits outside the per-file `try`, so a vanished file
raises past both directory loops into the function-level `except`, aborting
the rest of the pass (third component true); a failing `os.remove` is caught
per file and logged.  `onlyMp4` reproduces the `.mp4` filter of the tasks
loop (the cache loop takes every file). -/
def cleanupFilesFrom (now : Int) (onlyMp4 : Bool) :
    List FileRec → Nat × List Ev × Bool
  | [] => (0, [], false)
  | f :: rest =>
    if onlyMp4 && !endsWithExt f.name ".mp4" then cleanupFilesFrom now onlyMp4 rest
    else if !f.present then (0, [Ev.logError f.name], true)
    else if f.mtime < now - ONE_DAY then
      if f.removable then
        let r := cleanupFilesFrom now onlyMp4 rest
        (r.1 + 1, Ev.removeFile f.name :: r.2.1, r.2.2)
      else
        let r := cleanupFilesFrom now onlyMp4 rest
        (r.1, Ev.logError f.name :: r.2.1, r.2.2)
    else cleanupFilesFrom now onlyMp4 rest

/-- Shallow embedding of `cleanup_old_videos` (memory_monitor.py 32-73):
if either managed directory is missing, a warning is logged and the whole
cleanup returns at once; otherwise the tasks directory (only `.mp4` files)
and then the cache directory (every file) are processed against the cutoff
`now - 1 day`, a stat of a vanished file aborting the remainder through the
outer handler. -/
def cleanup_old_videos (tasks cache : Dir) (now : Int) : List Ev :=
  if !tasks.present || !cache.present then [Ev.logWarn]
  else
    let t := cleanupFilesFrom now true tasks.files
    if t.2.2 then t.2.1
    else
      let c := cleanupFilesFrom now false cache.files
      if c.2.2 then t.2.1 ++ c.2.1
      else t.2.1 ++ c.2.1 ++ [Ev.logInfo]

/-- The names successfully removed in a trace. -/
def removedNames (evs : List Ev) : List String :=
  evs.filterMap (fun ev => match ev with | .removeFile n => some n | _ => none)

/-- The per-file error tags logged in a trace. -/
def errorTags (evs : List Ev) : List String :=
  evs.filterMap (fun ev => match ev with | .logError n => some n | _ => none)

/-- Which files one `delete_old_files` call actually removes: extension
match, still present, removable, and strictly older than the cutoff. -/
def evictable (now cut : Int) (exts : List String) (f : FileRec) : Bool :=
  matchesExt exts f.name && f.present && f.removable && decide (f.mtime < now - cut)

/-- Which files one `delete_old_files` call logs an error for: extension
match, and either gone at stat time or eligible but failing to remove. -/
def deleteFailing (now cut : Int) (exts : List String) (f : FileRec) : Bool :=
  matchesExt exts f.name && (!f.present || (decide (f.mtime < now - cut) && !f.removable))

/-- Whether a tier list never goes backward in the ladder order. -/
def ascendingTiers : List Tier → Bool
  | [] => true
  | [_] => true
  | a :: b :: rest => decide (tierIdx a ≤ tierIdx b) && ascendingTiers (b :: rest)

/-! ### Helper lemmas -/

theorem filterMap_ite {α : Type} (f : Ev → Option α) (c : Prop) [Decidable c]
    (l1 l2 : List Ev) :
    (if c then l1 else l2).filterMap f = if c then l1.filterMap f else l2.filterMap f := by
  split <;> rfl

theorem filter_ite (f : Ev → Bool) (c : Prop) [Decidable c] (l1 l2 : List Ev) :
    (if c then l1 else l2).filter f = if c then l1.filter f else l2.filter f := by
  split <;> rfl

theorem cmv_no_tier (m : MinimalEnv) (p : List Char) :
    (create_minimal_video m p).events.filterMap tierOf = [] := by
  obtain ⟨r, fo, eo, co⟩ := m
  cases r <;> cases fo <;> cases eo <;> cases co <;>
    simp [create_minimal_video, tierOf]

theorem cmv_encode_filter (m : MinimalEnv) (p : List Char) :
    (create_minimal_video m p).events.filter isEncode =
      if m.raises then [] else [Ev.backendEncode p] := by
  obtain ⟨r, fo, eo, co⟩ := m
  cases r <;> cases fo <;> cases eo <;> cases co <;>
    simp [create_minimal_video, isEncode]

theorem cmv_no_extract (m : MinimalEnv) (p : List Char) :
    (create_minimal_video m p).events.filter (fun ev => ev == Ev.backendExtract) = [] := by
  obtain ⟨r, fo, eo, co⟩ := m
  cases r <;> cases fo <;> cases eo <;> cases co <;>
    simp [create_minimal_video]

theorem cmv_encode_mem (m : MinimalEnv) (p t : List Char)
    (h : Ev.backendEncode t ∈ (create_minimal_video m p).events) : t = p := by
  obtain ⟨r, fo, eo, co⟩ := m
  cases r <;> cases fo <;> cases eo <;> cases co <;>
    simp_all [create_minimal_video]

/-- The tier-attempt trace of a request, fully evaluated: the lookup tier,
then — unless the reuse copy landed — one `create_minimal_video` attempt,
doubled when the normal path's preview block raises. -/
theorem attemptedTiers_rfgv (e : GenEnv) (p : String) :
    attemptedTiers (render_free_generate_video e p) =
      if e.staticFound && e.copyOk then [Tier.ReuseStatic]
      else if e.disable then [Tier.ReuseStatic, Tier.MinimalEncode]
      else if e.outerRaises then [Tier.ReuseStatic, Tier.MinimalEncode, Tier.MinimalEncode]
      else [Tier.ReuseStatic, Tier.MinimalEncode] := by
  obtain ⟨sf, co, er, di, m1, oR, e2R, m2⟩ := e
  cases sf <;> cases co <;> cases er <;> cases di <;> cases oR <;> cases e2R <;>
    simp [render_free_generate_video, attemptedTiers, tierOf, cmv_no_tier,
      filterMap_ite]

theorem sanitize_length_le (n : Nat) (p : String) : (sanitize n p).length ≤ n := by
  simp only [sanitize]
  exact List.length_take_le n ((p.toList.filter (fun c => c != squote)).filter (fun c => c != dquote))

theorem sanitize_no_quotes (n : Nat) (p : String) (c : Char) (hc : c ∈ sanitize n p) :
    c ≠ squote ∧ c ≠ dquote := by
  have h1 := List.take_subset n _ hc
  simp only [List.mem_filter, bne_iff_ne, decide_eq_true_eq] at h1
  exact ⟨h1.1.2, h1.2⟩

theorem removedNames_deleteFilesFrom (now cut : Int) (exts : List String)
    (l : List FileRec) :
    removedNames (deleteFilesFrom now cut exts l).2 =
      (l.filter (evictable now cut exts)).map FileRec.name := by
  induction l with
  | nil => rfl
  | cons f rest ih =>
    rw [deleteFilesFrom]
    rcases Decidable.em (f.mtime < now - cut) with h3 | h3
    · cases h1 : matchesExt exts f.name <;> cases h2 : f.present <;>
        cases h4 : f.removable <;>
        simp_all [removedNames, evictable, if_pos h3, decide_eq_true h3]
    · cases h1 : matchesExt exts f.name <;> cases h2 : f.present <;>
        cases h4 : f.removable <;>
        simp_all [removedNames, evictable, if_neg h3, decide_eq_false h3]

theorem errorTags_deleteFilesFrom (now cut : Int) (exts : List String)
    (l : List FileRec) :
    errorTags (deleteFilesFrom now cut exts l).2 =
      (l.filter (deleteFailing now cut exts)).map FileRec.name := by
  induction l with
  | nil => rfl
  | cons f rest ih =>
    rw [deleteFilesFrom]
    rcases Decidable.em (f.mtime < now - cut) with h3 | h3
    · cases h1 : matchesExt exts f.name <;> cases h2 : f.present <;>
        cases h4 : f.removable <;>
        simp_all [errorTags, deleteFailing, if_pos h3, decide_eq_true h3]
    · cases h1 : matchesExt exts f.name <;> cases h2 : f.present <;>
        cases h4 : f.removable <;>
        simp_all [errorTags, deleteFailing, if_neg h3, decide_eq_false h3]

theorem count_deleteFilesFrom (now cut : Int) (exts : List String)
    (l : List FileRec) :
    (deleteFilesFrom now cut exts l).1 =
      (l.filter (evictable now cut exts)).length := by
  induction l with
  | nil => rfl
  | cons f rest ih =>
    rw [deleteFilesFrom]
    rcases Decidable.em (f.mtime < now - cut) with h3 | h3
    · cases h1 : matchesExt exts f.name <;> cases h2 : f.present <;>
        cases h4 : f.removable <;>
        simp_all [evictable, if_pos h3, decide_eq_true h3]
    · cases h1 : matchesExt exts f.name <;> cases h2 : f.present <;>
        cases h4 : f.removable <;>
        simp_all [evictable, if_neg h3, decide_eq_false h3]

theorem cleanup_removed_mem (now : Int) (onlyMp4 : Bool) (l : List FileRec)
    (n : String) (h : n ∈ removedNames (cleanupFilesFrom now onlyMp4 l).2.1) :
    ∃ f, f ∈ l ∧ f.name = n ∧ f.mtime < now - ONE_DAY := by
  induction l with
  | nil => simp [cleanupFilesFrom, removedNames] at h
  | cons f rest ih =>
    by_cases h1 : (onlyMp4 && !endsWithExt f.name ".mp4") = true
    · rw [cleanupFilesFrom, if_pos h1] at h
      obtain ⟨g, hg, hn, hm⟩ := ih h
      exact ⟨g, List.mem_cons_of_mem _ hg, hn, hm⟩
    · by_cases h2 : f.present = true
      · by_cases h3 : f.mtime < now - ONE_DAY
        · by_cases h4 : f.removable = true
          · rw [cleanupFilesFrom, if_neg h1] at h
            simp only [h2, Bool.not_true, if_neg, Bool.false_eq_true,
              not_false_iff, if_pos h3, if_pos h4, removedNames,
              List.filterMap_cons] at h
            rcases List.mem_cons.mp h with he | he
            · exact ⟨f, List.mem_cons_self f rest, he.symm, h3⟩
            · obtain ⟨g, hg, hn, hm⟩ := ih he
              exact ⟨g, List.mem_cons_of_mem _ hg, hn, hm⟩
          · rw [cleanupFilesFrom, if_neg h1] at h
            simp only [h2, Bool.not_true, Bool.false_eq_true, not_false_iff,
              if_neg, if_pos h3, removedNames, List.filterMap_cons] at h
            simp only [h4, if_neg, Bool.false_eq_true, not_false_iff] at h
            obtain ⟨g, hg, hn, hm⟩ := ih h
            exact ⟨g, List.mem_cons_of_mem _ hg, hn, hm⟩
        · rw [cleanupFilesFrom, if_neg h1] at h
          simp only [h2, Bool.not_true, Bool.false_eq_true, not_false_iff,
            if_neg, if_neg h3] at h
          obtain ⟨g, hg, hn, hm⟩ := ih h
          exact ⟨g, List.mem_cons_of_mem _ hg, hn, hm⟩
      · rw [cleanupFilesFrom, if_neg h1] at h
        simp only [Bool.not_eq_true] at h2
        simp [h2, removedNames] at h

theorem fallbackText_len (p : List Char) : 0 < (fallbackText p).length := by
  unfold fallbackText
  rw [String.length_append, String.length_append]
  have h : 0 < ("Video for: " : String).length := by decide
  omega

/-- The backend encode events of one request, fully evaluated: none from the
reuse branch, one per `create_minimal_video` call that reaches its
subprocess. -/
theorem rfgv_encode_filter (e : GenEnv) (p : String) :
    (render_free_generate_video e p).events.filter isEncode =
      if e.staticFound && e.copyOk then []
      else
        (if e.m1.raises then [] else [Ev.backendEncode (sanitize 50 p)]) ++
        (if e.disable = false ∧ e.outerRaises = true then
           (if e.m2.raises then [] else [Ev.backendEncode (sanitize 30 p)])
         else []) := by
  obtain ⟨sf, co, er, di, m1, oR, e2R, m2⟩ := e
  cases sf <;> cases co <;> cases er <;> cases di <;> cases oR <;> cases e2R <;>
    simp [render_free_generate_video, List.filter_append, cmv_encode_filter,
      isEncode, filter_ite]

/-- Every backend encode event of one request carries the sanitized prompt:
the 50-character form from the disable and normal paths, or the 30-character
form exactly when the normal path's preview block raised. -/
theorem rfgv_encode_mem (e : GenEnv) (p : String) (t : List Char)
    (h : Ev.backendEncode t ∈ (render_free_generate_video e p).events) :
    t = sanitize 50 p ∨
      (t = sanitize 30 p ∧ e.outerRaises = true ∧ e.disable = false) := by
  have hm : Ev.backendEncode t ∈ (render_free_generate_video e p).events.filter isEncode :=
    List.mem_filter.mpr ⟨h, rfl⟩
  rw [rfgv_encode_filter] at hm
  by_cases hsc : (e.staticFound && e.copyOk) = true
  · rw [if_pos hsc] at hm
    simp at hm
  · rw [if_neg hsc, List.mem_append] at hm
    rcases hm with hm | hm
    · left
      by_cases hr : e.m1.raises = true
      · rw [if_pos hr] at hm; simp at hm
      · rw [if_neg hr] at hm; simpa using hm
    · by_cases hd : e.disable = false ∧ e.outerRaises = true
      · rw [if_pos hd] at hm
        by_cases hr2 : e.m2.raises = true
        · rw [if_pos hr2] at hm; simp at hm
        · rw [if_neg hr2] at hm
          exact Or.inr ⟨by simpa using hm, hd.2, hd.1⟩
      · rw [if_neg hd] at hm; simp at hm

/-! ### The claims -/

/-- C1, counterexample: with the disable-processing switch set and the
ReuseStatic lookup failing, the controller calls `create_minimal_video`,
so the Video Encoding Backend's encode is invoked (not zero times) and
tier 3 (MinimalEncode) is attempted — refuting the claim that tiers 2-3 are
skipped and the backend receives zero calls. -/
theorem disable_mode_still_invokes_encoder :
    encodeCalls (render_free_generate_video
      ⟨false, true, false, true, ⟨false, true, false, false⟩, false, false,
        ⟨false, true, false, false⟩⟩ "a prompt") ≠ 0 ∧
    Tier.MinimalEncode ∈ attemptedTiers (render_free_generate_video
      ⟨false, true, false, true, ⟨false, true, false, false⟩, false, false,
        ⟨false, true, false, false⟩⟩ "a prompt") := by decide

/-- C1, amended: with disable-processing set and the ReuseStatic lookup
failed, the controller skips the Slideshow tier and the preview-extraction
step and goes directly to the MinimalEncode tier (`create_minimal_video`),
invoking the backend encode exactly once and the frame extraction zero
times. -/
theorem disable_mode_goes_to_minimal_encode (e : GenEnv) (p : String)
    (h1 : e.staticFound = false) (h2 : e.disable = true)
    (h3 : e.m1.raises = false) :
    attemptedTiers (render_free_generate_video e p) =
      [Tier.ReuseStatic, Tier.MinimalEncode] ∧
    encodeCalls (render_free_generate_video e p) = 1 ∧
    extractCalls (render_free_generate_video e p) = 0 ∧
    Tier.Slideshow ∉ attemptedTiers (render_free_generate_video e p) := by
  refine ⟨?_, ?_, ?_, ?_⟩
  · rw [attemptedTiers_rfgv]
    simp [h1, h2]
  · rw [encodeCalls, rfgv_encode_filter]
    simp [h1, h2, h3]
  · rw [extractCalls]
    simp only [render_free_generate_video, h1, h2, Bool.false_and,
      Bool.false_eq_true, if_false, if_true, if_pos]
    simp [List.filter_append, cmv_no_extract]
  · rw [attemptedTiers_rfgv]
    simp [h1, h2]

/-- C1, witness for the amended theorem at a concrete request. -/
theorem disable_mode_goes_to_minimal_encode_witness :
    attemptedTiers (render_free_generate_video
      ⟨false, false, false, true, ⟨false, true, true, false⟩, false, false,
        ⟨false, true, false, false⟩⟩ "hello") =
      [Tier.ReuseStatic, Tier.MinimalEncode] ∧
    encodeCalls (render_free_generate_video
      ⟨false, false, false, true, ⟨false, true, true, false⟩, false, false,
        ⟨false, true, false, false⟩⟩ "hello") = 1 ∧
    extractCalls (render_free_generate_video
      ⟨false, false, false, true, ⟨false, true, true, false⟩, false, false,
        ⟨false, true, false, false⟩⟩ "hello") = 0 ∧
    Tier.Slideshow ∉ attemptedTiers (render_free_generate_video
      ⟨false, false, false, true, ⟨false, true, true, false⟩, false, false,
        ⟨false, true, false, false⟩⟩ "hello") :=
  disable_mode_goes_to_minimal_encode
    ⟨false, false, false, true, ⟨false, true, true, false⟩, false, false,
      ⟨false, true, false, false⟩⟩ "hello" rfl rfl rfl

/-- C2, counterexample: at a sample of 50 percent (below the threshold of
65), the monitor iteration only logs — no temp sweep runs, even with a
sweepable temp file sitting there — refuting the claim that below-threshold
samples run the lightweight temp sweep. -/
theorem below_threshold_runs_nothing :
    memoryIteration
      ⟨50, ⟨true, []⟩, ⟨true, []⟩, [⟨true, [⟨"x.tmp", false, true, true⟩]⟩], 0⟩ =
      [Ev.logInfo] ∧
    Ev.tempSweepCall ∉ memoryIteration
      ⟨50, ⟨true, []⟩, ⟨true, []⟩, [⟨true, [⟨"x.tmp", false, true, true⟩]⟩], 0⟩ := by
  decide

/-- C2, amended: a sample strictly above the threshold runs the full pass
(cache and tasks eviction with the 12-hour cutoff, then the unconditional
temp sweep, then forced gc); a sample at or below the threshold runs nothing
at all beyond a log line — no temp sweep and no eviction.  The temp sweep
additionally runs once unconditionally when the monitor thread starts. -/
theorem monitor_threshold_split (it : IterInput) (startTemps : List TempDir)
    (iters : List IterInput) :
    (it.percent > MEMORY_THRESHOLD →
      removedNames (memoryIteration it) =
        removedNames (delete_old_files it.cache it.now HALF_DAY DEFAULT_EXTENSIONS).2 ++
        removedNames (delete_old_files it.tasks it.now HALF_DAY DEFAULT_EXTENSIONS).2 ++
        removedNames (clean_temp_files it.temps) ∧
      Ev.tempSweepCall ∈ memoryIteration it ∧
      Ev.gcCall ∈ memoryIteration it) ∧
    (it.percent ≤ MEMORY_THRESHOLD → memoryIteration it = [Ev.logInfo]) ∧
    Ev.tempSweepCall ∈ memory_monitor_thread startTemps iters := by
  refine ⟨fun h => ?_, fun h => ?_, ?_⟩
  · rw [memoryIteration, if_pos h]
    refine ⟨?_, ?_, ?_⟩
    · simp [removedNames, clean_temp_files, List.filterMap_append]
    · simp [clean_temp_files]
    · simp
  · rw [memoryIteration, if_neg (not_lt.mpr h)]
  · simp [memory_monitor_thread, clean_temp_files]

/-- C3, counterexample: a walked file that is gone by the time the pass
stats it ("deleting a file that does not exist") makes the pass emit a
`logger.error` line and is not counted as a deletion — refuting the claim
that an absent path is treated as success and emits no error. -/
theorem absent_path_delete_logs_error :
    errorTags (delete_old_files ⟨true, [⟨"gone.mp4", 0, false, true⟩]⟩
      100000 86400 DEFAULT_EXTENSIONS).2 = ["gone.mp4"] ∧
    (delete_old_files ⟨true, [⟨"gone.mp4", 0, false, true⟩]⟩
      100000 86400 DEFAULT_EXTENSIONS).1 = 0 := by decide

/-- C3, amended: deletion is best-effort and never raises out of the pass —
the pass is a total function of the directory — but a failed remove (absent
path, permission, in-use) logs an error and is not counted: exactly the
matching files that are gone or are eligible-but-unremovable produce error
lines, and the count is exactly the successfully removed set. -/
theorem delete_pass_error_accounting (dir : Dir) (now cut : Int)
    (exts : List String) (h : dir.present = true) :
    errorTags (delete_old_files dir now cut exts).2 =
      (dir.files.filter (deleteFailing now cut exts)).map FileRec.name ∧
    (delete_old_files dir now cut exts).1 =
      (dir.files.filter (evictable now cut exts)).length := by
  simp only [delete_old_files, h, Bool.not_true, Bool.false_eq_true, if_false]
  exact ⟨errorTags_deleteFilesFrom now cut exts dir.files,
    count_deleteFilesFrom now cut exts dir.files⟩

/-- C3, witness for the amended theorem on a directory holding one vanished
file and one removable old file. -/
theorem delete_pass_error_accounting_witness :
    errorTags (delete_old_files
      ⟨true, [⟨"gone.mp4", 0, false, true⟩, ⟨"old.mp4", 0, true, true⟩]⟩
      100000 86400 DEFAULT_EXTENSIONS).2 =
      ((([⟨"gone.mp4", 0, false, true⟩, ⟨"old.mp4", 0, true, true⟩] :
        List FileRec).filter (deleteFailing 100000 86400 DEFAULT_EXTENSIONS)).map
        FileRec.name) ∧
    (delete_old_files
      ⟨true, [⟨"gone.mp4", 0, false, true⟩, ⟨"old.mp4", 0, true, true⟩]⟩
      100000 86400 DEFAULT_EXTENSIONS).1 =
      (([⟨"gone.mp4", 0, false, true⟩, ⟨"old.mp4", 0, true, true⟩] :
        List FileRec).filter (evictable 100000 86400 DEFAULT_EXTENSIONS)).length :=
  delete_pass_error_accounting
    ⟨true, [⟨"gone.mp4", 0, false, true⟩, ⟨"old.mp4", 0, true, true⟩]⟩
    100000 86400 DEFAULT_EXTENSIONS rfl

/-- C4, counterexample: the terminal fallback of `create_minimal_video`
(its `except` branch, lines 265-275), run with an empty prompt, returns
False — failure, not success — and produces no preview stub, refuting the
claim that the terminal tier returns success together with a matching
preview stub for every input. -/
theorem terminal_fallback_returns_failure :
    (create_minimal_video ⟨true, true, false, false⟩ []).success = false ∧
    (create_minimal_video ⟨true, true, false, false⟩ []).previewContent = none := by
  decide

/-- C4, amended: the terminal fallback write of `create_minimal_video`
does leave a non-empty explanatory file at the output path for any prompt,
including the empty one, whenever the fallback write goes through — but it
reports failure (returns False) rather than success, and it produces no
preview stub. -/
theorem terminal_fallback_writes_file_reports_failure (m : MinimalEnv)
    (p : List Char) (h1 : m.raises = true) (h2 : m.fallbackOk = true) :
    (create_minimal_video m p).success = false ∧
    (create_minimal_video m p).outputContent = some (fallbackText p) ∧
    0 < (fallbackText p).length ∧
    (create_minimal_video m p).previewContent = none := by
  refine ⟨?_, ?_, fallbackText_len p, ?_⟩ <;>
    simp [create_minimal_video, h1, h2]

/-- C4, witness for the amended theorem at the empty prompt. -/
theorem terminal_fallback_writes_file_reports_failure_witness :
    (create_minimal_video ⟨true, true, true, true⟩ []).success = false ∧
    (create_minimal_video ⟨true, true, true, true⟩ []).outputContent =
      some (fallbackText []) ∧
    0 < (fallbackText []).length ∧
    (create_minimal_video ⟨true, true, true, true⟩ []).previewContent = none :=
  terminal_fallback_writes_file_reports_failure ⟨true, true, true, true⟩ [] rfl rfl

/-- C5, counterexample: for a request whose ReuseStatic lookup fails (with
processing enabled), the attempted tiers are ReuseStatic directly followed
by MinimalEncode — tier 1's failure proceeds to tier 3, not tier 2, so the
ladder is not attempted with "no tier skipped". -/
theorem ladder_skips_slideshow_tier :
    attemptedTiers (render_free_generate_video
      ⟨false, true, false, false, ⟨false, true, false, false⟩, false, false,
        ⟨false, true, false, false⟩⟩ "p") =
      [Tier.ReuseStatic, Tier.MinimalEncode] ∧
    tierIdx Tier.MinimalEncode ≠ tierIdx Tier.ReuseStatic + 1 := by decide

/-- C5, amended: tiers are attempted in ascending (never descending) order
and the controller stops at the first success, but the Slideshow tier is
never attempted at all — a failed ReuseStatic goes directly to
MinimalEncode — and when the normal path's preview block raises,
MinimalEncode is attempted a second time (the last resort); the placeholder
write happens inside MinimalEncode's failure handling, not as a separately
attempted tier. -/
theorem ladder_attempt_shape (e : GenEnv) (p : String) :
    (attemptedTiers (render_free_generate_video e p) = [Tier.ReuseStatic] ∨
     attemptedTiers (render_free_generate_video e p) =
       [Tier.ReuseStatic, Tier.MinimalEncode] ∨
     attemptedTiers (render_free_generate_video e p) =
       [Tier.ReuseStatic, Tier.MinimalEncode, Tier.MinimalEncode]) ∧
    Tier.Slideshow ∉ attemptedTiers (render_free_generate_video e p) ∧
    ascendingTiers (attemptedTiers (render_free_generate_video e p)) = true ∧
    ((e.staticFound && e.copyOk) = true →
      attemptedTiers (render_free_generate_video e p) = [Tier.ReuseStatic] ∧
      (render_free_generate_video e p).success = true) := by
  rw [attemptedTiers_rfgv]
  by_cases hsc : (e.staticFound && e.copyOk) = true
  · rw [if_pos hsc]
    refine ⟨Or.inl rfl, by decide, by decide, fun _ => ⟨rfl, ?_⟩⟩
    rw [render_free_generate_video, if_pos hsc]
    by_cases her : e.extractRaises = true
    · rw [if_pos her]
    · rw [if_neg her]
  · rw [if_neg hsc]
    by_cases hd : e.disable = true
    · rw [if_pos hd]
      exact ⟨Or.inr (Or.inl rfl), by decide, by decide, fun hc => absurd hc hsc⟩
    · rw [if_neg hd]
      by_cases ho : e.outerRaises = true
      · rw [if_pos ho]
        exact ⟨Or.inr (Or.inr rfl), by decide, by decide, fun hc => absurd hc hsc⟩
      · rw [if_neg ho]
        exact ⟨Or.inr (Or.inl rfl), by decide, by decide, fun hc => absurd hc hsc⟩

/-- C6, counterexample: `create_image_slideshow` called with an empty image
list (and its writes going through) returns True and commits the marker
file and a zero-slide HTML — refuting the claim that it requires at least
one image and counts as failure when none is supplied. -/
theorem slideshow_empty_list_succeeds :
    (create_image_slideshow true []).1 = true ∧
    (create_image_slideshow true []).2 =
      [Ev.writeHtml [], Ev.writeOutput slideshowMarker] := by decide

/-- C6, amended: `create_image_slideshow` imposes no minimum on its image
list: for every list, including the empty one, when the writes go through
it commits the marker file at the output path and the HTML companion and
returns True; it fails only when a write raises.  (The ladder controller
never invokes this tier, so no fall-through depends on the image count —
see the C5 theorems.) -/
theorem slideshow_commits_without_images (images : List String) :
    (create_image_slideshow true images).1 = true ∧
    Ev.writeOutput slideshowMarker ∈ (create_image_slideshow true images).2 ∧
    Ev.writeHtml images ∈ (create_image_slideshow true images).2 ∧
    (create_image_slideshow false images).1 = false := by
  simp [create_image_slideshow]

/-- C7 (confirmed): an eviction pass deletes exactly the matching, still
present, removable files whose mtime is strictly before `now` minus the
cutoff duration — so no record whose `modifiedAt` lies within the cutoff
window of the wall clock at call time is ever deleted; the cutoff is
recomputed from the `now` argument of each call (never cached), which the
universal quantification over `now` captures.  The same strict-cutoff bound
holds for every file `cleanup_old_videos` removes. -/
theorem eviction_only_strictly_older (dir tasks cache : Dir) (now cut : Int)
    (exts : List String) :
    (dir.present = true →
      removedNames (delete_old_files dir now cut exts).2 =
        (dir.files.filter (evictable now cut exts)).map FileRec.name) ∧
    (∀ n, n ∈ removedNames (delete_old_files dir now cut exts).2 →
      ∃ f, f ∈ dir.files ∧ f.name = n ∧ f.mtime < now - cut) ∧
    (∀ n, n ∈ removedNames (cleanup_old_videos tasks cache now) →
      ∃ f, (f ∈ tasks.files ∨ f ∈ cache.files) ∧ f.name = n ∧
        f.mtime < now - ONE_DAY) := by
  refine ⟨fun h => ?_, fun n hn => ?_, fun n hn => ?_⟩
  · simp only [delete_old_files, h, Bool.not_true, Bool.false_eq_true, if_false]
    exact removedNames_deleteFilesFrom now cut exts dir.files
  · rw [delete_old_files] at hn
    by_cases h : (!dir.present) = true
    · rw [if_pos h] at hn
      simp [removedNames] at hn
    · rw [if_neg h, removedNames_deleteFilesFrom] at hn
      obtain ⟨f, hf, hname⟩ := List.mem_map.mp hn
      have he := List.of_mem_filter hf
      simp only [evictable, Bool.and_eq_true, decide_eq_true_eq] at he
      exact ⟨f, List.mem_of_mem_filter hf, hname, he.2⟩
  · rw [cleanup_old_videos] at hn
    by_cases h1 : (!tasks.present || !cache.present) = true
    · rw [if_pos h1] at hn
      simp [removedNames] at hn
    · rw [if_neg h1] at hn
      by_cases h2 : (cleanupFilesFrom now true tasks.files).2.2 = true
      · rw [if_pos h2] at hn
        obtain ⟨f, hf, hname, hm⟩ := cleanup_removed_mem now true tasks.files n hn
        exact ⟨f, Or.inl hf, hname, hm⟩
      · rw [if_neg h2] at hn
        by_cases h3 : (cleanupFilesFrom now false cache.files).2.2 = true
        · rw [if_pos h3] at hn
          rw [removedNames, List.filterMap_append] at hn
          rcases List.mem_append.mp hn with hn | hn
          · obtain ⟨f, hf, hname, hm⟩ := cleanup_removed_mem now true tasks.files n hn
            exact ⟨f, Or.inl hf, hname, hm⟩
          · obtain ⟨f, hf, hname, hm⟩ := cleanup_removed_mem now false cache.files n hn
            exact ⟨f, Or.inr hf, hname, hm⟩
        · rw [if_neg h3] at hn
          rw [removedNames, List.filterMap_append, List.filterMap_append] at hn
          rcases List.mem_append.mp hn with hn | hn
          · rcases List.mem_append.mp hn with hn | hn
            · obtain ⟨f, hf, hname, hm⟩ := cleanup_removed_mem now true tasks.files n hn
              exact ⟨f, Or.inl hf, hname, hm⟩
            · obtain ⟨f, hf, hname, hm⟩ := cleanup_removed_mem now false cache.files n hn
              exact ⟨f, Or.inr hf, hname, hm⟩
          · simp at hn

/-- C8, counterexample: with the tasks directory missing but the cache
directory present and holding an eligible old file, `cleanup_old_videos`
only logs a warning and removes nothing — the remaining existing directory
is not processed; and `delete_old_files` on a missing directory emits no
log at all — refuting the claim that a missing directory is logged and the
pass still processes the remaining directories. -/
theorem missing_dir_skips_remaining_work :
    cleanup_old_videos ⟨false, []⟩ ⟨true, [⟨"old.mp4", 0, true, true⟩]⟩
      1000000 = [Ev.logWarn] ∧
    (delete_old_files ⟨false, []⟩ 1000000 86400 DEFAULT_EXTENSIONS).2 = [] := by
  decide

/-- C8, amended: a missing managed directory is never fatal — both passes
stay total — but the two passes differ from the claim: `delete_old_files`
skips a missing directory silently (returns 0 with no log) and the
monitor's full pass then still evicts the other directory and sweeps temp
files, while `cleanup_old_videos` logs a warning and returns early when
either directory is missing, skipping the remaining existing one. -/
theorem missing_dir_not_fatal (dir tasks cache : Dir) (now cut : Int)
    (exts : List String) (it : IterInput)
    (h1 : dir.present = false) (h2 : tasks.present = false ∨ cache.present = false) :
    delete_old_files dir now cut exts = (0, []) ∧
    cleanup_old_videos tasks cache now = [Ev.logWarn] ∧
    (it.cache.present = false → it.percent > MEMORY_THRESHOLD →
      removedNames (memoryIteration it) =
        removedNames (delete_old_files it.tasks it.now HALF_DAY DEFAULT_EXTENSIONS).2 ++
        removedNames (clean_temp_files it.temps)) := by
  refine ⟨?_, ?_, fun hc hp => ?_⟩
  · rw [delete_old_files, if_pos (by rw [h1]; rfl)]
  · rw [cleanup_old_videos, if_pos ?_]
    rcases h2 with h2 | h2 <;> simp [h2]
  · rw [memoryIteration, if_pos hp, delete_old_files, if_pos (by rw [hc]; rfl)]
    simp [removedNames, clean_temp_files, List.filterMap_append]

/-- C8, witness for the amended theorem at concrete directories and one
above-threshold iteration whose cache directory is missing. -/
theorem missing_dir_not_fatal_witness :
    delete_old_files ⟨false, []⟩ 1000000 86400 DEFAULT_EXTENSIONS = (0, []) ∧
    cleanup_old_videos ⟨false, []⟩ ⟨true, []⟩ 1000000 = [Ev.logWarn] ∧
    ((⟨90, ⟨false, []⟩, ⟨true, [⟨"t.mp4", 0, true, true⟩]⟩, [], 1000000⟩ :
        IterInput).cache.present = false →
      (⟨90, ⟨false, []⟩, ⟨true, [⟨"t.mp4", 0, true, true⟩]⟩, [], 1000000⟩ :
        IterInput).percent > MEMORY_THRESHOLD →
      removedNames (memoryIteration
        ⟨90, ⟨false, []⟩, ⟨true, [⟨"t.mp4", 0, true, true⟩]⟩, [], 1000000⟩) =
        removedNames (delete_old_files ⟨true, [⟨"t.mp4", 0, true, true⟩]⟩
          1000000 HALF_DAY DEFAULT_EXTENSIONS).2 ++
        removedNames (clean_temp_files [])) :=
  missing_dir_not_fatal ⟨false, []⟩ ⟨false, []⟩ ⟨true, []⟩ 1000000 86400
    DEFAULT_EXTENSIONS
    ⟨90, ⟨false, []⟩, ⟨true, [⟨"t.mp4", 0, true, true⟩]⟩, [], 1000000⟩
    rfl (Or.inl rfl)

/-- C9 (confirmed): every prompt text handed to the encoder on the
minimal-encode or last-resort path is the caller's prompt with all single
and double quotes removed and then truncated — to at most 50 characters
(the disable and normal paths), or to at most 30 characters exactly on the
last-resort path — never the raw prompt with quotes or beyond those
lengths. -/
theorem encoder_prompt_sanitized (e : GenEnv) (p : String) (t : List Char)
    (h : Ev.backendEncode t ∈ (render_free_generate_video e p).events) :
    (t = sanitize 50 p ∨
      (t = sanitize 30 p ∧ t.length ≤ 30 ∧
        e.outerRaises = true ∧ e.disable = false)) ∧
    t.length ≤ 50 ∧
    (∀ c ∈ t, c ≠ squote ∧ c ≠ dquote) := by
  rcases rfgv_encode_mem e p t h with ht | ⟨ht, ho, hd⟩
  · subst ht
    exact ⟨Or.inl rfl, sanitize_length_le 50 p, fun c hc => sanitize_no_quotes 50 p c hc⟩
  · subst ht
    exact ⟨Or.inr ⟨rfl, sanitize_length_le 30 p, ho, hd⟩,
      le_trans (sanitize_length_le 30 p) (by omega),
      fun c hc => sanitize_no_quotes 30 p c hc⟩

/-- C9, witness: the sanitization facts at a concrete request whose encode
event is exhibited by evaluation. -/
theorem encoder_prompt_sanitized_witness :
    (sanitize 50 "ab" = sanitize 50 "ab" ∨
      (sanitize 50 "ab" = sanitize 30 "ab" ∧ (sanitize 50 "ab").length ≤ 30 ∧
        (⟨false, true, false, false, ⟨false, true, false, false⟩, false, false,
          ⟨false, true, false, false⟩⟩ : GenEnv).outerRaises = true ∧
        (⟨false, true, false, false, ⟨false, true, false, false⟩, false, false,
          ⟨false, true, false, false⟩⟩ : GenEnv).disable = false)) ∧
    (sanitize 50 "ab").length ≤ 50 ∧
    (∀ c ∈ sanitize 50 "ab", c ≠ squote ∧ c ≠ dquote) :=
  encoder_prompt_sanitized
    ⟨false, true, false, false, ⟨false, true, false, false⟩, false, false,
      ⟨false, true, false, false⟩⟩ "ab" (sanitize 50 "ab") (by decide)

/-- C10 (confirmed): whenever `create_minimal_video` returns failure — the
encoder exiting non-zero, or an exception whose fallback write still goes
through — a non-empty text file sits at the output path at return time. -/
theorem failed_encode_leaves_nonempty_output (m : MinimalEnv) (p : List Char)
    (h1 : (create_minimal_video m p).success = false)
    (h2 : m.raises = false ∨ m.fallbackOk = true) :
    ∃ s, (create_minimal_video m p).outputContent = some s ∧ 0 < s.length := by
  by_cases hr : m.raises = true
  · rcases h2 with h2 | h2
    · rw [hr] at h2; exact absurd h2 (by simp)
    · refine ⟨fallbackText p, ?_, fallbackText_len p⟩
      simp [create_minimal_video, hr, h2]
  · by_cases he : m.encodeOk = true
    · exfalso
      rw [create_minimal_video] at h1
      simp [hr, he] at h1
    · refine ⟨fallbackText p, ?_, fallbackText_len p⟩
      simp [create_minimal_video, hr, he]

/-- C10, witness: a concrete failing encode (no exception) leaves a
non-empty file at the output path. -/
theorem failed_encode_leaves_nonempty_output_witness :
    ∃ s, (create_minimal_video ⟨false, false, false, false⟩ []).outputContent =
      some s ∧ 0 < s.length :=
  failed_encode_leaves_nonempty_output ⟨false, false, false, false⟩ []
    (by decide) (Or.inl rfl)

end VideoGen
